import Mathlib

/-!
Verification development for the example-mcp-server repository.

The repository contains three servers:
* a framework-free hello-world worker with an inline JSON-RPC 2.0 dispatcher
  (`Hello` below is its branch-for-branch translation);
* two framework-based example servers (`src/index.js`, rendered in the `JS`
  namespace, and `src/src/index.ts`, rendered in the `TS` namespace) whose
  handlers are translated here directly.

The `@mctx-ai/mcp-server` framework itself (dispatcher, execution engine,
conversation builder, URI-template matcher, `createProgress`) is not part of
the repository sources; the definitions below that stand in for it are marked
`Modelled from the spec:` and follow the specification text.

JavaScript numbers are modelled as exact rationals, absent JSON fields as
`Option.none`, thrown handler failures as `Except.error`.
-/

namespace MCPVerify

/-- JS logical-or over a possibly-absent string (`v || dflt`): `dflt` when the
value is absent or the empty string (both falsy in JS), else the value. -/
def jsOr (v : Option String) (dflt : String) : String :=
  match v with
  | some s => if s = "" then dflt else s
  | none => dflt

/-- A JSON-RPC id value as read from a JSON body: null, a number, or a string. -/
inductive RpcId where
  | null
  | num (n : Int)
  | str (s : String)
deriving DecidableEq, Repr

/-- A content item of a tool result (always `type: "text"` in this code base). -/
inductive ContentItem where
  | text (s : String)
deriving DecidableEq, Repr

namespace Hello

/-- The JSON-RPC body fields the hello-world worker reads after parsing:
`method`, `params?.name` (the requested tool name) and `id`; `none` models an
absent field, `some RpcId.null` a literal JSON null id. -/
structure ParsedBody where
  method : Option String
  paramName : Option String
  id : Option RpcId
deriving DecidableEq, Repr

/-- An incoming HTTP request as the worker observes it: the HTTP method and
the parsed JSON body (`none` when the body is not valid JSON). -/
structure HttpRequest where
  httpMethod : String
  body : Option ParsedBody
deriving DecidableEq, Repr

/-- The tools/list summary of the single registered tool; its input schema is
the constant empty-object schema and carries no information. -/
structure ToolInfo where
  name : String
  description : String
deriving DecidableEq, Repr

/-- The result member of a successful JSON-RPC response of the worker. -/
inductive RpcResult where
  | toolsList (tools : List ToolInfo)
  | toolCall (content : List ContentItem)
  | emptyObj
deriving DecidableEq, Repr

/-- A serialized JSON-RPC response body: `jsonrpc` is the constant "2.0"; the
`id` field is `none` when the key is dropped by serialization (JS undefined)
and `some RpcId.null` for a literal null. -/
structure RpcBody where
  result : Option RpcResult
  error : Option (Int × String)
  id : Option RpcId
deriving DecidableEq, Repr

/-- An HTTP response: status code plus the JSON-RPC body (`none` for the
body-less 204 preflight response). The constant headers of the source
(Content-Type, MCP-Protocol-Version, CORS) are not modelled. -/
structure HttpResponse where
  status : Nat
  rpc : Option RpcBody
deriving DecidableEq, Repr

/-- Constructor `jsonRpcResponse(result, id)` from the worker source: status
200, result member set, no error member, id passed through verbatim. -/
def jsonRpcResponse (result : RpcResult) (id : Option RpcId) : HttpResponse :=
  ⟨200, some ⟨some result, none, id⟩⟩

/-- Constructor `jsonRpcError(code, message, id, httpStatus)` from the worker
source: the given HTTP status, error member set, no result member, id passed
through verbatim. -/
def jsonRpcError (code : Int) (message : String) (id : Option RpcId)
    (httpStatus : Nat) : HttpResponse :=
  ⟨httpStatus, some ⟨none, some (code, message), id⟩⟩

/-- Rendering of a possibly-undefined string inside a JS template literal:
an undefined value prints as "undefined". -/
def showOptName : Option String → String
  | none => "undefined"
  | some s => s

/-- The tools/list entry for the single registered tool. -/
def helloTool : ToolInfo :=
  ⟨"hello", "Get a friendly greeting from the server"⟩

/-- The worker's fetch handler, translated branch-for-branch from the source;
`envGreeting` is `env.GREETING`. The Boolean of the returned pair is
instrumentation recording whether the inline hello tool body (the greeting
computation) ran; every other branch leaves it false. -/
def fetch (req : HttpRequest) (envGreeting : Option String) :
    HttpResponse × Bool :=
  if req.httpMethod = "OPTIONS" then
    (⟨204, none⟩, false)
  else if req.httpMethod ≠ "POST" then
    (jsonRpcError (-32600) "Invalid Request - Only POST allowed" (some RpcId.null) 405, false)
  else
    match req.body with
    | none =>
      (jsonRpcError (-32700) "Parse error - Invalid JSON" (some RpcId.null) 400, false)
    | some body =>
      if body.method = some "tools/list" then
        (jsonRpcResponse (RpcResult.toolsList [helloTool]) body.id, false)
      else if body.method = some "tools/call" then
        if body.paramName ≠ some "hello" then
          (jsonRpcError (-32601) ("Unknown tool: " ++ showOptName body.paramName) body.id 400,
            false)
        else
          (jsonRpcResponse
            (RpcResult.toolCall [ContentItem.text (jsOr envGreeting "Hello" ++ ", World!")])
            body.id, true)
      else if body.method = some "notifications/cancelled" then
        (jsonRpcResponse RpcResult.emptyObj body.id, false)
      else
        (jsonRpcError (-32601) ("Method not found: " ++ showOptName body.method) body.id 400,
          false)

/-- A JSON-RPC body is well-formed when exactly one of result / error is set. -/
def exactlyOne (rb : RpcBody) : Bool :=
  xor rb.result.isSome rb.error.isSome

/-- The methods the worker's switch statement handles. -/
def supportedMethods : List (Option String) :=
  [some "tools/list", some "tools/call", some "notifications/cancelled"]

/-- A PUT request carrying a well-formed JSON-RPC body with id 5; used to
probe the id-echo behaviour of the non-POST rejection branch. -/
def putRequest : HttpRequest :=
  ⟨"PUT", some ⟨some "tools/list", none, some (RpcId.num 5)⟩⟩

/-- A well-formed POST tools/list request body with id 1. -/
def postBody : ParsedBody :=
  ⟨some "tools/list", none, some (RpcId.num 1)⟩

/-- The POST request wrapping `postBody`. -/
def postRequest : HttpRequest :=
  ⟨"POST", some postBody⟩

/-- A GET request (no readable body); hits the non-POST rejection branch. -/
def getRequest : HttpRequest :=
  ⟨"GET", none⟩

/-- A POST request whose body is not valid JSON; hits the parse-error branch. -/
def badJsonRequest : HttpRequest :=
  ⟨"POST", none⟩

/-- The response body of the parse-error branch. -/
def parseErrorBody : RpcBody :=
  ⟨none, some (-32700, "Parse error - Invalid JSON"), some RpcId.null⟩

end Hello

/-- A progress notification value `{current, total}`. -/
structure ProgressStep where
  current : Nat
  total : Nat
deriving DecidableEq, Repr

/-- An observable event of one tool invocation: a progress notification or the
production of the final value. -/
inductive ToolEvent where
  | progress (current total : Nat)
  | final (value : String)
deriving DecidableEq, Repr

/-- Modelled from the spec: `createProgress(total)` (framework helper absent
from src/) returns a step function that produces successive
`{current: ++n, total}` notifications on each pull; the counter state is
threaded explicitly. -/
def createProgress (total : Nat) : Nat → ProgressStep × Nat :=
  fun n => (⟨n + 1, total⟩, n + 1)

/-- Modelled from the spec: the Handler Execution Engine (absent from src/)
pulls each step of a generator handler, forwards it to the notify sink, and
only then produces the final value — so the delivered order is the yielded
notifications in emission order followed by the final value, and nothing is
pulled after the final value. -/
def generatorTrace (run : List ProgressStep × String) : List ToolEvent :=
  run.1.map (fun p => ToolEvent.progress p.current p.total) ++ [ToolEvent.final run.2]

/-- Whether an event is a progress notification. -/
def ToolEvent.isProgress : ToolEvent → Bool
  | ToolEvent.progress _ _ => true
  | ToolEvent.final _ => false

/-- A tool-call result payload: content items plus the isError flag. -/
structure ToolResult where
  content : List ContentItem
  isError : Bool
deriving DecidableEq, Repr

/-- Modelled from the spec: the Handler Execution Engine (absent from src/)
coerces a handler outcome into a tool result — a returned string becomes one
text content item with isError false; a thrown failure is caught at this layer
and becomes a text content item carrying the failure message with isError
true, never a JSON-RPC-level error. -/
def execToolResult (out : Except String String) : ToolResult :=
  match out with
  | Except.ok s => ⟨[ContentItem.text s], false⟩
  | Except.error msg => ⟨[ContentItem.text msg], true⟩

/-- A framework JSON-RPC response envelope for one tools/call. -/
structure FwResponse where
  status : Nat
  result : Option ToolResult
  error : Option (Int × String)
  id : Option RpcId
deriving DecidableEq, Repr

/-- Modelled from the spec: the Protocol Dispatcher (absent from src/) wraps
every tool result — including isError results — in a successful JSON-RPC
envelope: HTTP 200, result member set, no error member, id echoed. -/
def toolCallResponse (out : Except String String) (id : Option RpcId) : FwResponse :=
  ⟨200, some (execToolResult out), none, id⟩

namespace TS

/-- The greet tool handler of src/src/index.ts:
`${greeting}, ${name}!` with `greeting = process.env.GREETING || 'Hello'`;
the environment variable is passed as an explicit argument. -/
def greet (envGreeting : Option String) (name : String) : String :=
  jsOr envGreeting "Hello" ++ ", " ++ name ++ "!"

/-- The structured return value of the calculate handler before JSON
serialization; `result` is `none` when `ops[operation]` is undefined. -/
structure CalcOut where
  operation : String
  a : Rat
  b : Rat
  result : Option Rat
deriving DecidableEq, Repr

/-- The `ops` record lookup of the calculate handler. -/
def ops (operation : String) (a b : Rat) : Option Rat :=
  if operation = "add" then some (a + b)
  else if operation = "subtract" then some (a - b)
  else if operation = "multiply" then some (a * b)
  else if operation = "divide" then some (a / b)
  else none

/-- The calculate tool handler of the source (identical logic in
src/index.js and src/src/index.ts): throws "Division by zero" on a divide
with b = 0, otherwise returns the `{operation, a, b, result}` object. -/
def calculate (operation : String) (a b : Rat) : Except String CalcOut :=
  if operation = "divide" ∧ b = 0 then
    Except.error "Division by zero"
  else
    Except.ok ⟨operation, a, b, ops operation a b⟩

/-- The analyze generator handler of the source: three `yield step()` pulls of
`createProgress 3` followed by the final string; rendered as the list of
yielded notifications paired with the returned value. -/
def analyzeRun (topic : String) : List ProgressStep × String :=
  let step := createProgress 3
  let s1 := step 0
  let s2 := step s1.2
  let s3 := step s2.2
  ([s1.1, s2.1, s3.1],
    "Analysis of \"" ++ topic ++ "\" complete. Found 42 insights across 7 categories.")

/-- Modelled from the spec: the engine JSON-serializes non-string handler
returns. JS number rendering is modelled exactly for integer-valued numbers,
the only ones the proofs evaluate. -/
def jsNum (q : Rat) : String :=
  if q.den = 1 then toString q.num else toString q

/-- JSON serialization of a calculate result object in field order; an
undefined `result` value drops the key, as JSON.stringify does. -/
def serializeCalc (o : CalcOut) : String :=
  "\x7b\"operation\":\"" ++ o.operation ++ "\",\"a\":" ++ jsNum o.a ++
    ",\"b\":" ++ jsNum o.b ++
    (match o.result with
      | some r => ",\"result\":" ++ jsNum r
      | none => "") ++ "\x7d"

/-- The tools/call pipeline for the calculate tool: run the handler, serialize
the object return, coerce to a tool result, wrap in the envelope. -/
def callCalculate (operation : String) (a b : Rat) (id : Option RpcId) : FwResponse :=
  toolCallResponse ((calculate operation a b).map serializeCalc) id

/-- A user profile object as built by the userProfile handler. -/
structure UserProfile where
  id : String
  name : String
  joined : String
  plan : String
deriving DecidableEq, Repr

/-- A resource handler's return payload: the readme handler returns plain
text; the userProfile handler returns a JSON-serialized profile object,
rendered structurally here. -/
inductive Payload where
  | textContent (s : String)
  | jsonProfile (u : UserProfile)
deriving DecidableEq, Repr

/-- The string returned by the static readme resource handler. -/
def readmeText : String :=
  "Welcome to the example MCP server built with @mctx-ai/mcp-server. This server demonstrates tools, resources, prompts, progress tracking, and sampling."

/-- The static readme resource handler of the source: ignores parameters. -/
def readme : List (String × String) → Payload :=
  fun _ => Payload.textContent readmeText

/-- Lookup of an extracted URI parameter; an absent one reads as undefined. -/
def lookupParam (params : List (String × String)) (k : String) : String :=
  match params.find? (fun p => p.1 == k) with
  | some p => p.2
  | none => "undefined"

/-- The dynamic userProfile resource handler of the source: builds
`{id: userId, name: "User " + userId, joined: "2024-01-01", plan: "pro"}`
from the extracted userId parameter. -/
def userProfile (params : List (String × String)) : Payload :=
  let userId := lookupParam params "userId"
  Payload.jsonProfile ⟨userId, "User " ++ userId, "2024-01-01", "pro"⟩

/-- A registered resource: the URI pattern (exact, or a template containing
placeholder segments), the registered mime type, and the handler. -/
structure ResourceDescriptor where
  pattern : String
  mimeType : String
  handler : List (String × String) → Payload

/-- The two resources registered by the source, in registration order. -/
def resourceRegistry : List ResourceDescriptor :=
  [⟨"docs://readme", "text/plain", readme⟩,
   ⟨"user://\x7buserId\x7d", "application/json", userProfile⟩]

/-- Modelled from the spec: split a URI or pattern at every slash character
(the Capability Registry's matcher is absent from src/). -/
def splitSlash : List Char → List (List Char)
  | [] => [[]]
  | c :: rest =>
    if c = '/' then [] :: splitSlash rest
    else (c :: (splitSlash rest).headD []) :: (splitSlash rest).tail

/-- Modelled from the spec: match one pattern segment against one URI
segment — a brace-delimited placeholder segment matches any non-empty segment
and binds it under the placeholder name; any other segment must match
byte-for-byte. -/
def segMatch (pat seg : List Char) : Option (List (String × String)) :=
  if pat.head? = some '\x7b' ∧ pat.getLast? = some '\x7d' then
    if seg = [] then none
    else some [(String.mk ((pat.drop 1).dropLast), String.mk seg)]
  else if pat = seg then some [] else none

/-- Modelled from the spec: segment lists must have equal length and match
pointwise; parameter bindings accumulate left to right. -/
def matchSegs : List (List Char) → List (List Char) → Option (List (String × String))
  | [], [] => some []
  | p :: ps, s :: ss =>
    match segMatch p s, matchSegs ps ss with
    | some b, some r => some (b ++ r)
    | _, _ => none
  | _, _ => none

/-- A pattern is a template when it contains a placeholder brace. -/
def isTemplate (p : String) : Bool :=
  p.data.contains '\x7b'

/-- Modelled from the spec: templated lookup scans templates in registration
order and returns the first structural match. -/
def firstTemplateMatch :
    List ResourceDescriptor → String → Option (ResourceDescriptor × List (String × String))
  | [], _ => none
  | d :: ds, uri =>
    if isTemplate d.pattern then
      match matchSegs (splitSlash d.pattern.data) (splitSlash uri.data) with
      | some ps => some (d, ps)
      | none => firstTemplateMatch ds uri
    else firstTemplateMatch ds uri

/-- Modelled from the spec: resource lookup — exact non-templated patterns are
consulted first in a direct lookup; only on a miss are templated patterns
scanned in registration order. -/
def matchResource (reg : List ResourceDescriptor) (uri : String) :
    Option (ResourceDescriptor × List (String × String)) :=
  match reg.find? (fun d => !(isTemplate d.pattern) && d.pattern == uri) with
  | some d => some (d, [])
  | none => firstTemplateMatch reg uri

/-- resources/read against this server's registry: match the URI, run the
matched handler on the extracted parameters, and return the payload together
with the registered mime type and the extracted parameters. -/
def readResource (uri : String) : Option (Payload × String × List (String × String)) :=
  match matchResource resourceRegistry uri with
  | some (d, ps) => some (d.handler ps, d.mimeType, ps)
  | none => none

end TS

/-- A conversation role. -/
inductive Role where
  | user
  | assistant
deriving DecidableEq, Repr

/-- The content of one conversation message: plain text, or an attachment with
a mime type. -/
inductive MsgContent where
  | text (s : String)
  | attachment (data : String) (mime : String)
deriving DecidableEq, Repr

/-- One conversation message. -/
structure Message where
  role : Role
  content : MsgContent
deriving DecidableEq, Repr

/-- Modelled from the spec: the conversation builder helper `user.say`. -/
def userSay (s : String) : Message :=
  ⟨Role.user, MsgContent.text s⟩

/-- Modelled from the spec: the conversation builder helper `ai.say`. -/
def aiSay (s : String) : Message :=
  ⟨Role.assistant, MsgContent.text s⟩

/-- Modelled from the spec: the conversation builder helper `user.attach`. -/
def userAttach (data : String) (mime : String) : Message :=
  ⟨Role.user, MsgContent.attachment data mime⟩

/-- Modelled from the spec: a prompt handler returning a single string is
sugar for a one-element conversation with role user. -/
def stringPromptMessages (s : String) : List Message :=
  [userSay s]

/-- The kind of a message content item. -/
inductive ContentKind where
  | textKind
  | attachmentKind
deriving DecidableEq, Repr

/-- The content kind of a message content item. -/
def kindOf : MsgContent → ContentKind
  | MsgContent.text _ => ContentKind.textKind
  | MsgContent.attachment _ _ => ContentKind.attachmentKind

namespace TS

/-- The code-review prompt handler of src/src/index.ts (JS `||` defaulting:
the language falls back to "code" in the sentence and to "" in the fence). -/
def codeReview (code : String) (language : Option String) : String :=
  "Please review this " ++ jsOr language "code" ++
    " for bugs, security issues, and improvements:\n\n```" ++
    jsOr language "" ++ "\n" ++ code ++ "\n```"

/-- The debug prompt handler of src/src/index.ts: the user error message,
then — only when the context argument is truthy (supplied and non-empty) — a
user context message via `user.say`, then the assistant message. -/
def debug (error : String) (context : Option String) : List Message :=
  [userSay ("I\x27m seeing this error: " ++ error)] ++
    (match context with
      | some c => if c = "" then [] else [userSay ("Context:\n" ++ c)]
      | none => []) ++
    [aiSay "I will analyze the error and provide step-by-step debugging guidance."]

end TS

namespace JS

/-- The greet tool handler of src/index.js: the fixed greeting `Hello`
regardless of any environment variable. -/
def greet (name : String) : String :=
  "Hello, " ++ name ++ "!"

/-- The debug prompt handler of src/index.js: like the TypeScript variant, but
the context message is produced by `user.attach(context, 'text/plain')`. -/
def debug (error : String) (context : Option String) : List Message :=
  [userSay ("I\x27m seeing this error: " ++ error)] ++
    (match context with
      | some c => if c = "" then [] else [userAttach c "text/plain"]
      | none => []) ++
    [aiSay "I will analyze the error and provide step-by-step debugging guidance."]

end JS

/-! ## Theorems -/

/-- Helper: every response of the hello-world worker's fetch handler is the
body-less preflight response, a 200 success envelope, or an error envelope
whose code/status pair is one of (-32700, 400), (-32601, 400), (-32600, 405). -/
theorem fetch_branches (req : Hello.HttpRequest) (env : Option String) :
    ((Hello.fetch req env).1.rpc = none) ∨
    (∃ res id, (Hello.fetch req env).1 = ⟨200, some ⟨some res, none, id⟩⟩) ∨
    (∃ code msg id st,
      (Hello.fetch req env).1 = ⟨st, some ⟨none, some (code, msg), id⟩⟩ ∧
      ((code = -32700 ∧ st = 400) ∨ (code = -32601 ∧ st = 400) ∨
        (code = -32600 ∧ st = 405))) := by
  obtain ⟨m, ob⟩ := req
  by_cases h1 : m = "OPTIONS"
  · exact Or.inl (by simp [Hello.fetch, h1])
  · by_cases h2 : m = "POST"
    · have h2' : ¬ m ≠ "POST" := by simp [h2]
      cases ob with
      | none =>
        refine Or.inr (Or.inr ⟨-32700, "Parse error - Invalid JSON", some RpcId.null, 400,
          ?_, by norm_num⟩)
        simp [Hello.fetch, h1, h2', Hello.jsonRpcError]
      | some b =>
        by_cases hl : b.method = some "tools/list"
        · refine Or.inr (Or.inl ⟨Hello.RpcResult.toolsList [Hello.helloTool], b.id, ?_⟩)
          simp [Hello.fetch, h1, h2', hl, Hello.jsonRpcResponse]
        · by_cases hc : b.method = some "tools/call"
          · by_cases hn : b.paramName = some "hello"
            · refine Or.inr (Or.inl
                ⟨Hello.RpcResult.toolCall [ContentItem.text (jsOr env "Hello" ++ ", World!")],
                  b.id, ?_⟩)
              simp [Hello.fetch, h1, h2', hl, hc, hn, Hello.jsonRpcResponse]
            · refine Or.inr (Or.inr ⟨-32601,
                "Unknown tool: " ++ Hello.showOptName b.paramName, b.id, 400, ?_, by norm_num⟩)
              simp [Hello.fetch, h1, h2', hl, hc, hn, Hello.jsonRpcError]
          · by_cases hx : b.method = some "notifications/cancelled"
            · refine Or.inr (Or.inl ⟨Hello.RpcResult.emptyObj, b.id, ?_⟩)
              simp [Hello.fetch, h1, h2', hl, hc, hx, Hello.jsonRpcResponse]
            · refine Or.inr (Or.inr ⟨-32601,
                "Method not found: " ++ Hello.showOptName b.method, b.id, 400, ?_, by norm_num⟩)
              simp [Hello.fetch, h1, h2', hl, hc, hx, Hello.jsonRpcError]
    · refine Or.inr (Or.inr ⟨-32600, "Invalid Request - Only POST allowed", some RpcId.null,
        405, ?_, by norm_num⟩)
      have h2' : m ≠ "POST" := h2
      simp [Hello.fetch, h1, h2', Hello.jsonRpcError]

/-- Claim C3 fails as stated: a PUT request carrying a well-formed JSON-RPC
body with id 5 is answered by the non-POST rejection, whose id member is the
literal null rather than the request's id — the id is not echoed verbatim for
every incoming request. -/
theorem c3_id_echo_counterexample :
    (Hello.fetch Hello.putRequest none).1.rpc =
      some ⟨none, some (-32600, "Invalid Request - Only POST allowed"), some RpcId.null⟩ ∧
    Hello.putRequest.body = some ⟨some "tools/list", none, some (RpcId.num 5)⟩ ∧
    (some RpcId.null : Option RpcId) ≠ some (RpcId.num 5) :=
  ⟨rfl, rfl, by decide⟩

/-- Claim C3 (amended): every JSON-RPC response body the worker produces has
exactly one of the result / error members set, and for every POST request with
a parseable JSON body the response id echoes the request id verbatim
(including null and including an absent id); non-POST and unparseable requests
are answered with a literal null id. -/
theorem c3_envelope_invariant (req : Hello.HttpRequest) (env : Option String) :
    (∀ rb, (Hello.fetch req env).1.rpc = some rb → Hello.exactlyOne rb = true) ∧
    (∀ b, req.body = some b → req.httpMethod = "POST" →
      (Hello.fetch req env).1.rpc.map Hello.RpcBody.id = some b.id) := by
  constructor
  · intro rb hrb
    rcases fetch_branches req env with h | ⟨res, id, h⟩ | ⟨code, msg, id, st, h, -⟩
    · rw [h] at hrb; cases hrb
    · rw [h] at hrb
      simp only [Option.some.injEq] at hrb
      subst hrb
      simp [Hello.exactlyOne]
    · rw [h] at hrb
      simp only [Option.some.injEq] at hrb
      subst hrb
      simp [Hello.exactlyOne]
  · intro b hb hm
    have h1 : ¬ req.httpMethod = "OPTIONS" := by rw [hm]; decide
    have h2 : ¬ req.httpMethod ≠ "POST" := by rw [hm]; simp
    simp only [Hello.fetch, if_neg h1, if_neg h2, hb]
    by_cases hl : b.method = some "tools/list"
    · simp [hl, Hello.jsonRpcResponse]
    · by_cases hc : b.method = some "tools/call"
      · by_cases hn : b.paramName = some "hello"
        · simp [hl, hc, hn, Hello.jsonRpcResponse]
        · simp [hl, hc, hn, Hello.jsonRpcError]
      · by_cases hx : b.method = some "notifications/cancelled"
        · simp [hl, hc, hx, Hello.jsonRpcResponse]
        · simp [hl, hc, hx, Hello.jsonRpcError]

/-- Witness for the amended C3 theorem at a concrete POST tools/list request
with id 1: the response id echoes the request id. -/
theorem c3_envelope_invariant_witness :
    (Hello.fetch Hello.postRequest none).1.rpc.map Hello.RpcBody.id =
      some (some (RpcId.num 1)) :=
  (c3_envelope_invariant Hello.postRequest none).2 Hello.postBody rfl rfl

/-- Claim C4: a well-formed POST request whose method is outside the worker's
supported set is answered with a JSON-RPC error of code -32601, and a
tools/call request naming an unregistered tool is answered with a -32601 error
whose message names the missing tool; in both cases the instrumentation Bool
shows the tool handler body never ran. -/
theorem c4_unknown_method_and_tool (env : Option String) (b1 b2 : Hello.ParsedBody)
    (h1 : b1.method ∉ Hello.supportedMethods)
    (h2 : b2.method = some "tools/call")
    (h3 : b2.paramName ≠ some "hello") :
    Hello.fetch ⟨"POST", some b1⟩ env =
      (Hello.jsonRpcError (-32601) ("Method not found: " ++ Hello.showOptName b1.method)
        b1.id 400, false) ∧
    Hello.fetch ⟨"POST", some b2⟩ env =
      (Hello.jsonRpcError (-32601) ("Unknown tool: " ++ Hello.showOptName b2.paramName)
        b2.id 400, false) := by
  simp only [Hello.supportedMethods, List.mem_cons, List.mem_singleton, not_or] at h1
  obtain ⟨e1, e2, e3⟩ := h1
  constructor
  · simp [Hello.fetch, e1, e2, e3]
  · simp [Hello.fetch, h2, h3]

/-- Witness for the C4 theorem: the unknown method "foo" and the unknown tool
"nosuch" both yield -32601 responses without running the handler. -/
theorem c4_unknown_method_and_tool_witness :
    Hello.fetch ⟨"POST", some ⟨some "foo", none, some RpcId.null⟩⟩ none =
      (Hello.jsonRpcError (-32601) "Method not found: foo" (some RpcId.null) 400, false) ∧
    Hello.fetch ⟨"POST", some ⟨some "tools/call", some "nosuch", some RpcId.null⟩⟩ none =
      (Hello.jsonRpcError (-32601) "Unknown tool: nosuch" (some RpcId.null) 400, false) :=
  c4_unknown_method_and_tool none ⟨some "foo", none, some RpcId.null⟩
    ⟨some "tools/call", some "nosuch", some RpcId.null⟩ (by decide) rfl (by decide)

/-- Claim C5 fails as stated: a GET request is answered with error code -32600
at HTTP status 405, not the claimed HTTP 400. -/
theorem c5_status_mapping_counterexample :
    (Hello.fetch Hello.getRequest none).1 =
      Hello.jsonRpcError (-32600) "Invalid Request - Only POST allowed" (some RpcId.null) 405 ∧
    (Hello.fetch Hello.getRequest none).1.status = 405 ∧ (405 : Nat) ≠ 400 :=
  ⟨rfl, rfl, by decide⟩

/-- Claim C5 (amended): every -32700 error response is sent with HTTP 400,
every -32601 error response with HTTP 400, and every -32600 error response
(produced only by the non-POST rejection) with HTTP 405. -/
theorem c5_error_code_status (req : Hello.HttpRequest) (env : Option String)
    (rb : Hello.RpcBody) (c : Int) (msg : String)
    (hrb : (Hello.fetch req env).1.rpc = some rb)
    (he : rb.error = some (c, msg)) :
    (c = -32700 → (Hello.fetch req env).1.status = 400) ∧
    (c = -32601 → (Hello.fetch req env).1.status = 400) ∧
    (c = -32600 → (Hello.fetch req env).1.status = 405) := by
  rcases fetch_branches req env with h | ⟨res, id, h⟩ | ⟨code, msg2, id, st, h, hcs⟩
  · rw [h] at hrb; cases hrb
  · rw [h] at hrb
    simp only [Option.some.injEq] at hrb
    subst hrb
    simp at he
  · rw [h] at hrb
    simp only [Option.some.injEq] at hrb
    subst hrb
    simp only [Option.some.injEq, Prod.mk.injEq] at he
    obtain ⟨hc, -⟩ := he
    subst hc
    rw [h]
    refine ⟨fun hcc => ?_, fun hcc => ?_, fun hcc => ?_⟩ <;>
      · show st = _
        rcases hcs with ⟨h4, h5⟩ | ⟨h4, h5⟩ | ⟨h4, h5⟩ <;> omega

/-- Witness for the amended C5 theorem at a POST request with an unparseable
body: the -32700 parse error is sent with HTTP 400. -/
theorem c5_error_code_status_witness :
    ((-32700 : Int) = -32700 → (Hello.fetch Hello.badJsonRequest none).1.status = 400) ∧
    ((-32700 : Int) = -32601 → (Hello.fetch Hello.badJsonRequest none).1.status = 400) ∧
    ((-32700 : Int) = -32600 → (Hello.fetch Hello.badJsonRequest none).1.status = 405) :=
  c5_error_code_status Hello.badJsonRequest none Hello.parseErrorBody (-32700)
    "Parse error - Invalid JSON" rfl rfl

/-- Claim C1: a handler failure is caught by the execution engine and turned
into a successful JSON-RPC response — HTTP 200 and no error member — whose
result has isError true and a text content item carrying the failure message;
in particular the calculate tool's divide-by-zero guard surfaces as a
"Division by zero" text item, for every dividend a. -/
theorem c1_handler_failure_as_isError_result (msg : String) (a : Rat) (id : Option RpcId) :
    execToolResult (Except.error msg) = ⟨[ContentItem.text msg], true⟩ ∧
    toolCallResponse (Except.error msg) id =
      ⟨200, some ⟨[ContentItem.text msg], true⟩, none, id⟩ ∧
    (TS.callCalculate "divide" a 0 id).status = 200 ∧
    (TS.callCalculate "divide" a 0 id).error = none ∧
    (TS.callCalculate "divide" a 0 id).result =
      some ⟨[ContentItem.text "Division by zero"], true⟩ := by
  refine ⟨rfl, rfl, ?_, ?_, ?_⟩ <;>
    simp [TS.callCalculate, TS.calculate, toolCallResponse, execToolResult, Except.map]

/-- Claim C2: the analyze invocation declares 3 steps and yields exactly 3
progress notifications with current strictly increasing 1, 2, 3 and total 3;
in the delivered event trace every notification precedes the final value and
the final value is the last event, so nothing is pulled after it. -/
theorem c2_analyze_progress_trace (topic : String) :
    (TS.analyzeRun topic).1 = [⟨1, 3⟩, ⟨2, 3⟩, ⟨3, 3⟩] ∧
    (TS.analyzeRun topic).1.length = 3 ∧
    List.Chain' (fun p q => p.current < q.current) (TS.analyzeRun topic).1 ∧
    (∀ p ∈ (TS.analyzeRun topic).1, p.total = 3) ∧
    generatorTrace (TS.analyzeRun topic) =
      [ToolEvent.progress 1 3, ToolEvent.progress 2 3, ToolEvent.progress 3 3,
        ToolEvent.final ("Analysis of \"" ++ topic ++
          "\" complete. Found 42 insights across 7 categories.")] ∧
    (∀ e ∈ (generatorTrace (TS.analyzeRun topic)).dropLast, e.isProgress = true) ∧
    (generatorTrace (TS.analyzeRun topic)).getLast? =
      some (ToolEvent.final ("Analysis of \"" ++ topic ++
        "\" complete. Found 42 insights across 7 categories.")) := by
  refine ⟨rfl, rfl, ?_, ?_, rfl, ?_, ?_⟩
  · exact List.chain'_cons.mpr ⟨by decide, List.chain'_cons.mpr ⟨by decide, List.chain'_singleton _⟩⟩
  · intro p hp
    simp [TS.analyzeRun, createProgress] at hp
    rcases hp with h | h | h <;> simp [h]
  · intro e he
    have ht : generatorTrace (TS.analyzeRun topic) =
        [ToolEvent.progress 1 3, ToolEvent.progress 2 3, ToolEvent.progress 3 3,
          ToolEvent.final ("Analysis of \"" ++ topic ++
            "\" complete. Found 42 insights across 7 categories.")] := rfl
    rw [ht] at he
    simp [List.dropLast] at he
    rcases he with h | h | h <;> simp [h, ToolEvent.isProgress]
  · rfl

/-- Claim C6: on every schema-valid input other than divide-by-zero the
calculate handler succeeds and its result field is the arithmetic value of
the operation; concretely, calculate(add, 5, 3) yields a tools/call result
whose content text is the serialized object with result 8. -/
theorem c6_calculate_valid_inputs (operation : String) (a b : Rat)
    (h : ¬(operation = "divide" ∧ b = 0)) :
    (operation = "add" →
      TS.calculate operation a b = Except.ok ⟨operation, a, b, some (a + b)⟩) ∧
    (operation = "subtract" →
      TS.calculate operation a b = Except.ok ⟨operation, a, b, some (a - b)⟩) ∧
    (operation = "multiply" →
      TS.calculate operation a b = Except.ok ⟨operation, a, b, some (a * b)⟩) ∧
    (operation = "divide" →
      TS.calculate operation a b = Except.ok ⟨operation, a, b, some (a / b)⟩) ∧
    (TS.callCalculate "add" 5 3 (some (RpcId.num 1))).result =
      some ⟨[ContentItem.text
        "\x7b\"operation\":\"add\",\"a\":5,\"b\":3,\"result\":8\x7d"], false⟩ := by
  refine ⟨?_, ?_, ?_, ?_, ?_⟩
  · intro hop; subst hop; simp [TS.calculate, TS.ops]
  · intro hop; subst hop; simp [TS.calculate, TS.ops]
  · intro hop; subst hop; simp [TS.calculate, TS.ops]
  · intro hop
    subst hop
    have hb : ¬ b = 0 := fun hb0 => h ⟨rfl, hb0⟩
    simp [TS.calculate, TS.ops, hb]
  · have hc : TS.calculate "add" 5 3 = Except.ok ⟨"add", 5, 3, some 8⟩ := by
      norm_num [TS.calculate, TS.ops]
    simp only [TS.callCalculate, hc, Except.map, toolCallResponse, execToolResult,
      TS.serializeCalc, TS.jsNum, Rat.num_ofNat, Rat.den_ofNat]
    decide

/-- Witness for the C6 theorem at divide(20, 4): the handler succeeds with
result 20 / 4. -/
theorem c6_calculate_valid_inputs_witness :
    TS.calculate "divide" 20 4 = Except.ok ⟨"divide", 20, 4, some (20 / 4)⟩ :=
  (c6_calculate_valid_inputs "divide" 20 4 (by decide)).2.2.2.1 rfl

/-- Helper: a slash-free character list splits into the single segment
consisting of itself. -/
theorem splitSlash_no_slash (cs : List Char) (h : '/' ∉ cs) :
    TS.splitSlash cs = [cs] := by
  induction cs with
  | nil => rfl
  | cons c rest ih =>
    simp only [List.mem_cons, not_or] at h
    have hc : ¬ c = '/' := fun hcc => h.1 hcc.symm
    simp only [TS.splitSlash, if_neg hc, ih h.2, List.headD, List.tail]

/-- Helper: a URI of the form user:// followed by a slash-free id splits into
the scheme segment, an empty segment, and the id segment. -/
theorem splitSlash_user (cs : List Char) (h : '/' ∉ cs) :
    TS.splitSlash ("user://".data ++ cs) = ["user:".data, [], cs] := by
  have h0 := splitSlash_no_slash cs h
  show TS.splitSlash ('u' :: 's' :: 'e' :: 'r' :: ':' :: '/' :: '/' :: cs) = _
  simp [TS.splitSlash, h0]

/-- Claim C7: resources/read on the exact URI docs://readme returns the
registered text/plain mime type, and on user://s for any slash-free non-empty
id s the matcher extracts userId = s and the handler builds the profile whose
id field is exactly s. -/
theorem c7_resource_read (s : String) (h1 : s ≠ "") (h2 : '/' ∉ s.data) :
    TS.readResource "docs://readme" =
      some (TS.Payload.textContent TS.readmeText, "text/plain", []) ∧
    TS.readResource ("user://" ++ s) =
      some (TS.Payload.jsonProfile ⟨s, "User " ++ s, "2024-01-01", "pro"⟩,
        "application/json", [("userId", s)]) := by
  have hmk : String.mk s.data = s := by cases s; rfl
  have hs : s.data ≠ [] := by
    intro hd
    apply h1
    cases s
    simp_all
  constructor
  · rfl
  · have hne : ("docs://readme" : String) ≠ "user://" ++ s := by
      intro he
      have hd := congrArg String.data he
      rw [String.data_append] at hd
      simp at hd
    have hsplit : TS.splitSlash ("user://" ++ s).data = ["user:".data, [], s.data] := by
      rw [String.data_append]
      exact splitSlash_user s.data h2
    have hpat : TS.splitSlash ("user://\x7buserId\x7d" : String).data =
        ["user:".data, [], "\x7buserId\x7d".data] := by decide
    have hseg3 : TS.segMatch "\x7buserId\x7d".data s.data = some [("userId", s)] := by
      rw [TS.segMatch]
      rw [if_pos (by decide)]
      rw [if_neg hs]
      rw [hmk]
      rfl
    have g1 : TS.segMatch "user:".data "user:".data = some [] := by decide
    have g2 : TS.segMatch ([] : List Char) [] = some [] := by decide
    have hmatch : TS.matchSegs ["user:".data, [], "\x7buserId\x7d".data]
        ["user:".data, [], s.data] = some [("userId", s)] := by
      simp only [TS.matchSegs, g1, g2, hseg3]
      simp
    have hfind : TS.resourceRegistry.find?
        (fun d => !(TS.isTemplate d.pattern) && d.pattern == ("user://" ++ s)) = none := by
      have e1 : (("docs://readme" : String) == "user://" ++ s) = false :=
        beq_eq_false_iff_ne.mpr hne
      have e2 : TS.isTemplate "user://\x7buserId\x7d" = true := by decide
      simp [TS.resourceRegistry, List.find?, e1, e2]
    have htempl : TS.firstTemplateMatch TS.resourceRegistry ("user://" ++ s) =
        some (⟨"user://\x7buserId\x7d", "application/json", TS.userProfile⟩,
          [("userId", s)]) := by
      have e0 : TS.isTemplate "docs://readme" = false := by decide
      have e2 : TS.isTemplate "user://\x7buserId\x7d" = true := by decide
      simp only [TS.resourceRegistry, TS.firstTemplateMatch, e0, e2, Bool.false_eq_true,
        if_false, if_true, hpat, hsplit, hmatch]
    rw [TS.readResource, TS.matchResource, hfind, htempl]
    simp [TS.userProfile, TS.lookupParam]

/-- Witness for the C7 theorem at the concrete id 123: the extracted userId is
"123" and the profile id field is "123". -/
theorem c7_resource_read_witness :
    TS.readResource ("user://" ++ "123") =
      some (TS.Payload.jsonProfile ⟨"123", "User " ++ "123", "2024-01-01", "pro"⟩,
        "application/json", [("userId", "123")]) :=
  (c7_resource_read "123" (by decide) (by decide)).2

/-- Claim C8 fails as stated: supplying the empty string as context — a valid
string argument for the optional context parameter — yields 2 messages, the
same as omitting context, not one more, because the handler tests the context
with JS truthiness and the empty string is falsy. -/
theorem c8_empty_context_counterexample :
    (TS.debug "boom" (some "")).length = 2 ∧
    (TS.debug "boom" none).length = 2 ∧
    ¬ (TS.debug "boom" (some "")).length = (TS.debug "boom" none).length + 1 :=
  ⟨rfl, rfl, by decide⟩

/-- Claim C8 (amended): a prompt handler returning a single string yields
exactly one message with role user; and the debug prompt called with a
non-empty context yields exactly one more message than without context, in
builder call order — user error message, user context message, assistant
message (an empty-string context is falsy in JS and treated as absent). -/
theorem c8_prompt_message_shapes (code e c : String) (language : Option String)
    (hc : c ≠ "") :
    stringPromptMessages (TS.codeReview code language) =
      [⟨Role.user, MsgContent.text (TS.codeReview code language)⟩] ∧
    (stringPromptMessages (TS.codeReview code language)).length = 1 ∧
    (∀ m ∈ stringPromptMessages (TS.codeReview code language), m.role = Role.user) ∧
    TS.debug e (some c) =
      [userSay ("I\x27m seeing this error: " ++ e), userSay ("Context:\n" ++ c),
        aiSay "I will analyze the error and provide step-by-step debugging guidance."] ∧
    (TS.debug e (some c)).length = (TS.debug e none).length + 1 := by
  refine ⟨rfl, rfl, ?_, ?_, ?_⟩
  · intro m hm
    simp [stringPromptMessages, userSay] at hm
    simp [hm, userSay]
  · simp [TS.debug, hc]
  · simp [TS.debug, hc]

/-- Witness for the amended C8 theorem at concrete arguments with a non-empty
context: three messages in builder call order. -/
theorem c8_prompt_message_shapes_witness :
    TS.debug "err" (some "stack") =
      [userSay ("I\x27m seeing this error: " ++ "err"), userSay ("Context:\n" ++ "stack"),
        aiSay "I will analyze the error and provide step-by-step debugging guidance."] :=
  (c8_prompt_message_shapes "x" "err" "stack" none (by decide)).2.2.2.1

/-- Claim C9 fails as stated: at error "e" with context "c" the two debug
handlers produce context messages of different content kinds — an attachment
in src/index.js (user.attach) and plain text in src/src/index.ts (user.say). -/
theorem c9_content_kind_counterexample :
    ((JS.debug "e" (some "c")).map fun m => kindOf m.content) =
      [ContentKind.textKind, ContentKind.attachmentKind, ContentKind.textKind] ∧
    ((TS.debug "e" (some "c")).map fun m => kindOf m.content) =
      [ContentKind.textKind, ContentKind.textKind, ContentKind.textKind] ∧
    ContentKind.attachmentKind ≠ ContentKind.textKind :=
  ⟨rfl, rfl, by decide⟩

/-- Claim C9 (amended): for every error and non-empty context, the two debug
handlers produce the same number of messages with the same roles in the same
order, but the context message's content kind differs — text in the
TypeScript variant, attachment in the JavaScript variant. -/
theorem c9_debug_handler_comparison (e c : String) (hc : c ≠ "") :
    (JS.debug e (some c)).length = (TS.debug e (some c)).length ∧
    (JS.debug e (some c)).map Message.role = (TS.debug e (some c)).map Message.role ∧
    ((JS.debug e (some c)).map fun m => kindOf m.content) =
      [ContentKind.textKind, ContentKind.attachmentKind, ContentKind.textKind] ∧
    ((TS.debug e (some c)).map fun m => kindOf m.content) =
      [ContentKind.textKind, ContentKind.textKind, ContentKind.textKind] := by
  refine ⟨?_, ?_, ?_, ?_⟩ <;>
    simp [JS.debug, TS.debug, hc, userSay, aiSay, userAttach, kindOf]

/-- Witness for the amended C9 theorem at error "x", context "y". -/
theorem c9_debug_handler_comparison_witness :
    (JS.debug "x" (some "y")).length = (TS.debug "x" (some "y")).length ∧
    (JS.debug "x" (some "y")).map Message.role =
      (TS.debug "x" (some "y")).map Message.role ∧
    ((JS.debug "x" (some "y")).map fun m => kindOf m.content) =
      [ContentKind.textKind, ContentKind.attachmentKind, ContentKind.textKind] ∧
    ((TS.debug "x" (some "y")).map fun m => kindOf m.content) =
      [ContentKind.textKind, ContentKind.textKind, ContentKind.textKind] :=
  c9_debug_handler_comparison "x" "y" (by decide)

/-- Claim C10 fails as stated: with GREETING set to the empty string — a set
environment value — the TypeScript greet handler still answers with "Hello"
(JS `||` treats the empty string as falsy), whereas the claim's reading of
"the GREETING environment value" would give ", Alice!". -/
theorem c10_empty_greeting_counterexample :
    TS.greet (some "") "Alice" = "Hello, Alice!" ∧
    "Hello, Alice!" ≠ "" ++ ", " ++ "Alice" ++ "!" :=
  ⟨rfl, by decide⟩

/-- Claim C10 (amended): the TypeScript greet handler returns exactly
greeting, comma, space, name verbatim, exclamation mark — where the greeting
is the GREETING value when set and non-empty and "Hello" when unset or empty;
the JavaScript variant always greets with "Hello". The name is inserted
verbatim: the handler is injective in the name, so whitespace is never
trimmed or normalized. -/
theorem c10_greet_verbatim (env : Option String) (g name n1 n2 : String)
    (hg : g ≠ "") (hinj : TS.greet env n1 = TS.greet env n2) :
    TS.greet (some g) name = g ++ ", " ++ name ++ "!" ∧
    TS.greet none name = "Hello, " ++ name ++ "!" ∧
    TS.greet (some "") name = "Hello, " ++ name ++ "!" ∧
    JS.greet name = "Hello, " ++ name ++ "!" ∧
    n1 = n2 := by
  refine ⟨?_, ?_, ?_, ?_, ?_⟩
  · simp [TS.greet, jsOr, hg]
  · rfl
  · rfl
  · rfl
  · have hd := congrArg String.data hinj
    simp only [TS.greet, String.data_append] at hd
    have hd1 := List.append_cancel_right hd
    have hd2 := List.append_cancel_left hd1
    cases n1
    cases n2
    simp_all

/-- Witness for the amended C10 theorem: a custom greeting with a
whitespace-padded name is rendered verbatim. -/
theorem c10_greet_verbatim_witness :
    TS.greet (some "Howdy") "  Alice  " = "Howdy" ++ ", " ++ "  Alice  " ++ "!" ∧
    TS.greet none "  Alice  " = "Hello, " ++ "  Alice  " ++ "!" ∧
    TS.greet (some "") "  Alice  " = "Hello, " ++ "  Alice  " ++ "!" ∧
    JS.greet "  Alice  " = "Hello, " ++ "  Alice  " ++ "!" ∧
    "Bob" = "Bob" :=
  c10_greet_verbatim none "Howdy" "  Alice  " "Bob" "Bob" (by decide) rfl

end MCPVerify
